import Mathlib

/-!
Shallow embedding of the Telegram_Bot article pipeline
(`src/utils.py`, `src/main.py`, `src/bot.py`).

Python strings are sequences of Unicode code points; we embed them as
`List Char`.  The Python string operations used by the code
(`str.strip`, `str.startswith`, `str.splitlines`, slicing) are embedded
below, and the pipeline functions are translated from `src/utils.py` /
`src/main.py` with the external world (network attempts, clock,
spreadsheet contents) passed in explicitly.
-/

/-- Python whitespace (`str.strip` default set, ASCII part):
space, tab, newline, carriage return, vertical tab, form feed. -/
def isPySpace (c : Char) : Bool :=
  c = ' ' || c = '\t' || c = '\n' || c = '\r' || c = '\x0b' || c = '\x0c'

/-- Left part of Python `str.strip`: drop leading whitespace. -/
def pyLstrip (s : List Char) : List Char :=
  s.dropWhile isPySpace

/-- Right part of Python `str.strip`: drop trailing whitespace. -/
def pyRstrip (s : List Char) : List Char :=
  (s.reverse.dropWhile isPySpace).reverse

/-- Python `str.strip()`: drop leading and trailing whitespace. -/
def pyStrip (s : List Char) : List Char :=
  pyRstrip (pyLstrip s)

/-- Python `s.startswith(p)`: `p` is a prefix of `s` (first argument is
the pattern). -/
def pyStartswith : List Char → List Char → Bool
  | [], _ => true
  | _ :: _, [] => false
  | p :: ps, c :: cs => p == c && pyStartswith ps cs

/-- Python `str.splitlines()`: split at `\n`, `\r\n` or `\r`; a trailing
terminator produces no extra empty line; the empty string yields `[]`. -/
def pySplitlines : List Char → List (List Char)
  | [] => []
  | '\n' :: cs => [] :: pySplitlines cs
  | '\r' :: '\n' :: cs => [] :: pySplitlines cs
  | '\r' :: cs => [] :: pySplitlines cs
  | c :: cs =>
    match pySplitlines cs with
    | [] => [[c]]
    | l :: ls => (c :: l) :: ls

-- Constants from src/utils.py lines 21–24.
def MAX_RETRIES : Nat := 3
def RETRY_DELAY : Nat := 5
def MAX_CONTENT_LENGTH : Nat := 50000

-- The three recognized section labels of src/utils.py lines 58–66.
def labelChuDe : List Char := "Chủ đề:".data
def labelTieuDe : List Char := "Tiêu đề:".data
def labelTomTat : List Char := "Tóm tắt:".data

/-- Result dictionary of `parse_deepseek_result`
(keys `subject`, `title`, `summary`, always all present). -/
structure AnalysisResult where
  subject : List Char
  title : List Char
  summary : List Char
deriving Repr, DecidableEq

/-- The key of the section currently being accumulated
(`current_section` in `parse_deepseek_result`). -/
inductive SectionKey
  | chuDe
  | tieuDe
  | tomTat
deriving Repr, DecidableEq

/-- The loop state of `parse_deepseek_result`: the `sections` dict
plus `current_section`. -/
structure ParseState where
  chuDe : List Char
  tieuDe : List Char
  tomTat : List Char
  current : Option SectionKey
deriving Repr, DecidableEq

def initParseState : ParseState := ⟨[], [], [], none⟩

/-- `sections[current_section] += suffix` of src/utils.py line 70. -/
def appendSection (st : ParseState) (k : SectionKey) (suffix : List Char) :
    ParseState :=
  match k with
  | .chuDe => { st with chuDe := st.chuDe ++ suffix }
  | .tieuDe => { st with tieuDe := st.tieuDe ++ suffix }
  | .tomTat => { st with tomTat := st.tomTat ++ suffix }

/-- One iteration of the `for line in result_text.splitlines()` loop of
`parse_deepseek_result` (src/utils.py lines 56–70). -/
def processLine (st : ParseState) (rawLine : List Char) : ParseState :=
  let line := pyStrip rawLine
  if pyStartswith labelChuDe line then
    { st with chuDe := pyStrip (line.drop labelChuDe.length),
              current := some .chuDe }
  else if pyStartswith labelTieuDe line then
    { st with tieuDe := pyStrip (line.drop labelTieuDe.length),
              current := some .tieuDe }
  else if pyStartswith labelTomTat line then
    { st with tomTat := pyStrip (line.drop labelTomTat.length),
              current := some .tomTat }
  else
    match st.current with
    | some k => if line = [] then st else appendSection st k (' ' :: line)
    | none => st

/-- `parse_deepseek_result` (src/utils.py lines 44–76). -/
def parse_deepseek_result (result_text : List Char) : AnalysisResult :=
  let st := (pySplitlines result_text).foldl processLine initParseState
  { subject := pyStrip st.chuDe
    title := pyStrip st.tieuDe
    summary := pyStrip st.tomTat }

-- Sentinel strings of src/utils.py lines 98 and 271–273.
def sentinelNoTitle : List Char := "Không có tiêu đề".data
def sentinelNoInfo : List Char := "Không có thông tin".data

/-- Outcome of one `Article(url); article.download(); article.parse()`
attempt (the external world).  `fail` models an exception raised by
download/parse; `ok text title` models a parsed article with
`article.text = text` and `article.title = title` (the empty list also
models a falsy `article.title`). -/
inductive FetchAttempt
  | fail
  | ok (text : List Char) (title : List Char)

/-- The content-length cap of src/utils.py lines 104–105 / 324–325. -/
def truncateContent (content : List Char) : List Char :=
  if content.length > MAX_CONTENT_LENGTH then
    content.take MAX_CONTENT_LENGTH ++ "...".data
  else content

/-- `real_title = article.title.strip() if article.title else "Không có
tiêu đề"` (src/utils.py lines 98 / 319). -/
def realTitleOf (title : List Char) : List Char :=
  if title = [] then sentinelNoTitle else pyStrip title

/-- The retry loop shared verbatim by `fetch_webpage_content`
(src/utils.py lines 91–111) and the inline loop of `process_article`
(lines 312–330): try each attempt in order; an attempt fails when
download/parse raises or when the stripped text is empty (the
`raise Exception("No content extracted…")` caught by the same
`except`); the first successful attempt yields the truncated content
and the real title.  (`process_article`'s loop carries the stale
`content` of a failed attempt across iterations, but that value is
always falsy, so its post-loop `if not content` check makes the loop
equivalent to this `Option`-valued function.) -/
def fetchAttemptLoop (env : Nat → FetchAttempt) :
    List Nat → Option (List Char × List Char)
  | [] => none
  | i :: rest =>
    match env i with
    | .fail => fetchAttemptLoop env rest
    | .ok text title =>
      let content := pyStrip text
      if content = [] then fetchAttemptLoop env rest
      else some (truncateContent content, realTitleOf title)

/-- `fetch_webpage_content` (src/utils.py lines 81–114): returns the
2-tuple `(content, real_title)` on success and `(None, None)` after
`MAX_RETRIES` failed attempts. -/
def fetch_webpage_content (env : Nat → FetchAttempt) :
    Option (List Char) × Option (List Char) :=
  match fetchAttemptLoop env (List.range MAX_RETRIES) with
  | some (content, title) => (some content, some title)
  | none => (none, none)

/-- Outcome of one HTTP POST of `analyze_content` (the external world):
`transportFail` models a `requests.RequestException`; `response text`
models a successful reply whose `choices[0].message.content` is
`text`. -/
inductive AnalyzeOutcome
  | transportFail
  | response (text : List Char)

/-- The retry loop of `analyze_content` (src/utils.py lines 157–189):
the parsed dictionary of the first successful attempt (`none` models
the empty dict `{}` returned after exhausting retries) together with
the log of `time.sleep` calls (seconds, one per failed attempt). -/
def analyzeLoop (env : Nat → AnalyzeOutcome) :
    List Nat → Option AnalysisResult × List Nat
  | [] => (none, [])
  | i :: rest =>
    match env i with
    | .transportFail =>
      let (r, sleeps) := analyzeLoop env rest
      (r, RETRY_DELAY :: sleeps)
    | .response text => (some (parse_deepseek_result text), [])

/-- `analyze_content` (src/utils.py lines 119–189): raises `ValueError`
(`.error ()`) on empty input, otherwise runs the retry loop and never
raises (`requests.RequestException` is the only caught class, and the
environment here produces no other failure). -/
def analyze_content (env : Nat → AnalyzeOutcome) (content : List Char) :
    Except Unit (Option AnalysisResult × List Nat) :=
  if content = [] then .error ()
  else .ok (analyzeLoop env (List.range MAX_RETRIES))

/-- A clock value, as read by `datetime.now()`. -/
structure DateTime where
  year : Nat
  month : Nat
  day : Nat
  hour : Nat
  minute : Nat
  second : Nat
deriving Repr, DecidableEq

/-- CPython `strftime` zero-pads `%Y` to width 4 and the other numeric
directives to width 2. -/
def padNum (w : Nat) (n : Nat) : List Char :=
  let d := Nat.toDigits 10 n
  List.replicate (w - d.length) '0' ++ d

/-- `datetime.now().strftime("%Y-%m-%d %H:%M:%S")` applied to an
explicit clock value (src/utils.py line 269). -/
def formatTimestamp (t : DateTime) : List Char :=
  padNum 4 t.year ++ '-' :: padNum 2 t.month ++ '-' :: padNum 2 t.day ++
  ' ' :: padNum 2 t.hour ++ ':' :: padNum 2 t.minute ++ ':' :: padNum 2 t.second

/-- A worksheet row: a list of cell strings. -/
abbrev Row := List (List Char)

-- Header row of src/utils.py line 246.
def headersRow : Row :=
  ["Chủ đề".data, "Tiêu đề".data, "Tóm tắt".data,
   "Link bài báo".data, "Timestamp".data]

/-- `get_or_create_worksheet` (src/utils.py lines 223–254), acting on
the worksheet contents (an absent worksheet is created empty): when
`row_values(1)` is empty (falsy), append the header row. -/
def get_or_create_worksheet (ws : List Row) : List Row :=
  if ws.headD [] = [] then ws ++ [headersRow] else ws

/-- The analysis dictionary handed to `update_google_sheet`: in every
program path it is either the empty dict `{}` (`none`, when
`analyze_content` exhausted its retries) or a dict with all three keys
present (`some r`, as built by `parse_deepseek_result`).  Python
`data.get(key, default)` returns the default only when the key is
absent; a present key holding the empty string yields the empty
string. -/
def dictGet (data : Option AnalysisResult)
    (field : AnalysisResult → List Char) (default : List Char) : List Char :=
  match data with
  | none => default
  | some r => field r

/-- One backup line written by `update_google_sheet`
(src/utils.py lines 283–291). -/
structure BackupRecord where
  timestamp : List Char
  analysis : Option AnalysisResult
  url : List Char
deriving Repr, DecidableEq

/-- `update_google_sheet` (src/utils.py lines 256–295), acting on the
worksheet contents: ensure the header, append the data row built from
`data.get(key, 'Không có thông tin')`, the caller's `url` verbatim and
the formatted current time, then write one backup line.  Returns the
new worksheet contents and the backup lines written. -/
def update_google_sheet (data : Option AnalysisResult) (url : List Char)
    (now : DateTime) (ws : List Row) : List Row × List BackupRecord :=
  let ws1 := get_or_create_worksheet ws
  let timestamp := formatTimestamp now
  let new_row : Row :=
    [dictGet data AnalysisResult.subject sentinelNoInfo,
     dictGet data AnalysisResult.title sentinelNoInfo,
     dictGet data AnalysisResult.summary sentinelNoInfo,
     url, timestamp]
  (ws1 ++ [new_row], [{ timestamp := timestamp, analysis := data, url := url }])

/-- Observable result of one pipeline run: the final worksheet
contents, the backup lines written, and whether `analyze_content` /
`update_google_sheet` were reached. -/
structure PipelineRun where
  finalSheet : List Row
  backups : List BackupRecord
  analyzeCalled : Bool
  updateCalled : Bool
deriving Repr, DecidableEq

/-- `process_article` (src/utils.py lines 300–347): inline fetch loop,
early return on falsy content, `analyze_content`, early return on
falsy analysis (the parse dict always carries its three keys, so it is
falsy exactly when it is the empty dict `{}`), the unconditional
`analysis['title'] = real_title` override, then `update_google_sheet`. -/
def process_article (fenv : Nat → FetchAttempt) (aenv : Nat → AnalyzeOutcome)
    (url : List Char) (now : DateTime) (ws : List Row) :
    Except Unit PipelineRun :=
  match fetchAttemptLoop fenv (List.range MAX_RETRIES) with
  | none => .ok ⟨ws, [], false, false⟩
  | some (content, real_title) =>
    match analyze_content aenv content with
    | .error e => .error e
    | .ok (analysisOpt, _) =>
      match analysisOpt with
      | none => .ok ⟨ws, [], true, false⟩
      | some analysis =>
        let analysis2 := { analysis with title := real_title }
        let (ws2, backups) := update_google_sheet (some analysis2) url now ws
        .ok ⟨ws2, backups, true, true⟩

/-- Python truthiness of the 2-tuple returned by
`fetch_webpage_content`: a nonempty tuple is always truthy, including
`(None, None)`. -/
def pyTupleTruthy (_ : Option (List Char) × Option (List Char)) : Bool :=
  true

/-- `main` (src/main.py lines 4–42), with the usage check already
passed (named `mainRun` because Lean reserves `main` for an IO entry
point).  `fetch_webpage_content` returns a 2-tuple, so main's
`if not content` guard never fires (a 2-tuple is truthy even when it is
`(None, None)`), and `analyze_content`'s own `if not content` check
sees the same truthy tuple (not a string), so no `ValueError` is
raised; the HTTP attempts depend only on the transport environment.
`sys.exit(1)` is modelled as `.error ()`. -/
def mainRun (fenv : Nat → FetchAttempt) (aenv : Nat → AnalyzeOutcome)
    (url : List Char) (now : DateTime) (ws : List Row) :
    Except Unit PipelineRun :=
  let content := fetch_webpage_content fenv
  if pyTupleTruthy content = false then .error ()
  else
    let (analysisOpt, _) := analyzeLoop aenv (List.range MAX_RETRIES)
    let (ws2, backups) := update_google_sheet analysisOpt url now ws
    .ok ⟨ws2, backups, true, true⟩

/-- A string containing no line-break character: exactly one
`splitlines` line. -/
def noBreak (l : List Char) : Prop :=
  ∀ c ∈ l, c ≠ '\n' ∧ c ≠ '\r'

instance (l : List Char) : Decidable (noBreak l) := by
  unfold noBreak; infer_instance

/-- The `"Label: value"` text rebuilt from a parse result's subject and
summary fields, as used by the round-trip property. -/
def reconstructLabeled (subject summary : List Char) : List Char :=
  (labelChuDe ++ ' ' :: subject) ++ '\n' :: (labelTomTat ++ ' ' :: summary)

/-- The data row `update_google_sheet` builds for an analysis mapping,
a raw URL and a clock value. -/
def sheetRow (data : Option AnalysisResult) (url : List Char)
    (now : DateTime) : Row :=
  [dictGet data AnalysisResult.subject sentinelNoInfo,
   dictGet data AnalysisResult.title sentinelNoInfo,
   dictGet data AnalysisResult.summary sentinelNoInfo,
   url, formatTimestamp now]

example :
    parse_deepseek_result
      ("Chủ đề: x\nTiêu đề: y\nTóm tắt: z".data) =
      ⟨"x".data, "y".data, "z".data⟩ := by decide

example :
    parse_deepseek_result ("Tóm tắt: Y\nChủ đề: X".data) =
      ⟨"X".data, [], "Y".data⟩ := by decide

example :
    parse_deepseek_result ("Tóm tắt: Y\n more\nChủ đề: X".data) =
      ⟨"X".data, [], "Y more".data⟩ := by decide

/-! ### Facts about the embedded Python string operations -/

theorem pySplitlines_cons_of_noBreak (c : Char) (l : List Char)
    (hn : c ≠ '\n') (hr : c ≠ '\r') :
    pySplitlines (c :: l) =
      match pySplitlines l with
      | [] => [[c]]
      | x :: xs => (c :: x) :: xs := by
  rw [pySplitlines.eq_def]
  split <;> simp_all

theorem pySplitlines_append_newline :
    ∀ (A B : List Char), noBreak A →
      pySplitlines (A ++ '\n' :: B) = A :: pySplitlines B
  | [], B, _ => by simp [pySplitlines]
  | c :: t, B, hA => by
    have hc := hA c (by simp)
    have ht : noBreak t := fun d hd => hA d (by simp [hd])
    rw [List.cons_append, pySplitlines_cons_of_noBreak c _ hc.1 hc.2,
        pySplitlines_append_newline t B ht]

theorem pySplitlines_of_noBreak :
    ∀ (A : List Char), noBreak A → A ≠ [] → pySplitlines A = [A]
  | [], _, hne => absurd rfl hne
  | c :: t, hA, _ => by
    have hc := hA c (by simp)
    have ht : noBreak t := fun d hd => hA d (by simp [hd])
    rw [pySplitlines_cons_of_noBreak c t hc.1 hc.2]
    rcases hu : t with _ | ⟨d, u⟩
    · rfl
    · rw [← hu, pySplitlines_of_noBreak t ht (by simp [hu])]

theorem dropWhile_self_idem (p : Char → Bool) :
    ∀ l : List Char, (l.dropWhile p).dropWhile p = l.dropWhile p
  | [] => rfl
  | c :: t => by
    by_cases h : p c
    · simp [List.dropWhile_cons, h, dropWhile_self_idem p t]
    · simp [List.dropWhile_cons, h]

theorem pyLstrip_cons_pos (c : Char) (l : List Char) (h : isPySpace c = true) :
    pyLstrip (c :: l) = pyLstrip l := by
  simp [pyLstrip, List.dropWhile_cons, h]

theorem pyLstrip_cons_neg (c : Char) (l : List Char) (h : isPySpace c = false) :
    pyLstrip (c :: l) = c :: l := by
  simp [pyLstrip, List.dropWhile_cons, h]

theorem pyLstrip_length_le (l : List Char) : (pyLstrip l).length ≤ l.length :=
  (List.dropWhile_suffix _).length_le

theorem pyRstrip_length_le (l : List Char) : (pyRstrip l).length ≤ l.length := by
  have := (List.dropWhile_suffix (l := l.reverse) isPySpace).length_le
  simpa [pyRstrip] using this

theorem pyRstrip_append (A B : List Char) :
    pyRstrip (A ++ B) = if pyRstrip B = [] then pyRstrip A else A ++ pyRstrip B := by
  by_cases h : B.reverse.dropWhile isPySpace = []
  · rw [if_pos (by simp [pyRstrip, h])]
    simp [pyRstrip, List.reverse_append, List.dropWhile_append, h]
  · rw [if_neg (by simp [pyRstrip, h])]
    simp [pyRstrip, List.reverse_append, List.dropWhile_append, h]

theorem pyLstrip_eq_self_of_strip (l : List Char) (h : pyStrip l = l) :
    pyLstrip l = l := by
  have h1 : l.length ≤ (pyLstrip l).length := by
    conv_lhs => rw [← h]
    exact pyRstrip_length_le (pyLstrip l)
  exact (List.dropWhile_suffix _).eq_of_length
    (Nat.le_antisymm (pyLstrip_length_le l) h1)

theorem pyRstrip_eq_self_of_strip (l : List Char) (h : pyStrip l = l) :
    pyRstrip l = l := by
  have hl := pyLstrip_eq_self_of_strip l h
  calc pyRstrip l = pyRstrip (pyLstrip l) := by rw [hl]
    _ = l := h

theorem pyStrip_cons_space (c : Char) (l : List Char) (h : isPySpace c = true) :
    pyStrip (c :: l) = pyStrip l := by
  simp [pyStrip, pyLstrip_cons_pos c l h]

theorem head_nonspace_of_lstrip_fix (c : Char) (t : List Char)
    (h : pyLstrip (c :: t) = c :: t) : isPySpace c = false := by
  cases hc : isPySpace c
  · rfl
  · exfalso
    rw [pyLstrip_cons_pos _ t hc] at h
    have h1 := pyLstrip_length_le t
    have h2 : (pyLstrip t).length = t.length + 1 := by rw [h]; simp
    omega

theorem pyStrip_append_space (P X : List Char)
    (hP : pyStrip P = P) (hPne : P ≠ []) (hX : pyStrip X = X) :
    pyStrip (P ++ ' ' :: X) = if X = [] then P else P ++ ' ' :: X := by
  obtain ⟨c, t, rfl⟩ : ∃ c t, P = c :: t := by
    rcases P with _ | ⟨c, t⟩
    · exact absurd rfl hPne
    · exact ⟨c, t, rfl⟩
  have hPl := pyLstrip_eq_self_of_strip _ hP
  have hPr := pyRstrip_eq_self_of_strip _ hP
  have hc : isPySpace c = false := head_nonspace_of_lstrip_fix c t hPl
  have hlstrip : pyLstrip ((c :: t) ++ ' ' :: X) = (c :: t) ++ ' ' :: X := by
    rw [List.cons_append]
    exact pyLstrip_cons_neg _ _ hc
  unfold pyStrip
  rw [hlstrip, pyRstrip_append]
  by_cases hXn : X = []
  · subst hXn
    rw [if_pos rfl, if_pos (show pyRstrip [' '] = [] from rfl), hPr]
  · have hXr : pyRstrip X = X := pyRstrip_eq_self_of_strip _ hX
    have h1 : pyRstrip (' ' :: X) = ' ' :: X := by
      have h2 := pyRstrip_append [' '] X
      rw [hXr, if_neg hXn] at h2
      simpa using h2
    rw [if_neg (by simp [h1, hXn]), if_neg hXn, h1]

theorem pyStartswith_append_self :
    ∀ (p r : List Char), pyStartswith p (p ++ r) = true
  | [], _ => rfl
  | c :: t, r => by simp [pyStartswith, pyStartswith_append_self t r]

theorem pyStartswith_exists :
    ∀ (p s : List Char), pyStartswith p s = true → ∃ r, s = p ++ r
  | [], s, _ => ⟨s, rfl⟩
  | _ :: _, [], h => by simp [pyStartswith] at h
  | c :: t, d :: u, h => by
    simp only [pyStartswith, Bool.and_eq_true, beq_iff_eq] at h
    obtain ⟨r, hr⟩ := pyStartswith_exists t u h.2
    exact ⟨r, by rw [List.cons_append, ← hr, h.1]⟩

-- The three labels are mutually exclusive as line prefixes: they differ
-- within the first two characters.
theorem chuDe_not_sw_tieuDe (r : List Char) :
    pyStartswith labelChuDe (labelTieuDe ++ r) = false := rfl

theorem chuDe_not_sw_tomTat (r : List Char) :
    pyStartswith labelChuDe (labelTomTat ++ r) = false := rfl

theorem tieuDe_not_sw_chuDe (r : List Char) :
    pyStartswith labelTieuDe (labelChuDe ++ r) = false := rfl

theorem tieuDe_not_sw_tomTat (r : List Char) :
    pyStartswith labelTieuDe (labelTomTat ++ r) = false := rfl

theorem tomTat_not_sw_chuDe (r : List Char) :
    pyStartswith labelTomTat (labelChuDe ++ r) = false := rfl

theorem tomTat_not_sw_tieuDe (r : List Char) :
    pyStartswith labelTomTat (labelTieuDe ++ r) = false := rfl

theorem pyStrip_nil : pyStrip [] = [] := rfl

theorem processLine_chuDe (st : ParseState) (X : List Char)
    (hX : pyStrip X = X) :
    processLine st (labelChuDe ++ ' ' :: X) =
      { st with chuDe := X, current := some SectionKey.chuDe } := by
  have hstrip := pyStrip_append_space labelChuDe X (by decide) (by decide) hX
  by_cases hXn : X = []
  · subst hXn
    simp only [if_pos rfl] at hstrip
    simp [processLine, hstrip,
          show pyStartswith labelChuDe labelChuDe = true from rfl,
          List.drop_length, pyStrip_nil]
  · simp only [if_neg hXn] at hstrip
    simp [processLine, hstrip, pyStartswith_append_self labelChuDe (' ' :: X),
          List.drop_left, pyStrip_cons_space ' ' X (by decide), hX]

theorem processLine_tomTat (st : ParseState) (X : List Char)
    (hX : pyStrip X = X) :
    processLine st (labelTomTat ++ ' ' :: X) =
      { st with tomTat := X, current := some SectionKey.tomTat } := by
  have hstrip := pyStrip_append_space labelTomTat X (by decide) (by decide) hX
  by_cases hXn : X = []
  · subst hXn
    simp only [if_pos rfl] at hstrip
    simp [processLine, hstrip,
          show pyStartswith labelChuDe labelTomTat = false from rfl,
          show pyStartswith labelTieuDe labelTomTat = false from rfl,
          show pyStartswith labelTomTat labelTomTat = true from rfl,
          List.drop_length, pyStrip_nil]
  · simp only [if_neg hXn] at hstrip
    simp [processLine, hstrip, chuDe_not_sw_tomTat, tieuDe_not_sw_tomTat,
          pyStartswith_append_self labelTomTat (' ' :: X), List.drop_left,
          pyStrip_cons_space ' ' X (by decide), hX]

theorem noBreak_label_line (L X : List Char) (hL : noBreak L)
    (hX : noBreak X) : noBreak (L ++ ' ' :: X) := by
  intro c hc
  rcases List.mem_append.1 hc with h | h
  · exact hL c h
  · rcases List.mem_cons.1 h with rfl | h
    · exact ⟨by decide, by decide⟩
    · exact hX c h

theorem parse_chuDe_tomTat (X Y : List Char)
    (hXb : noBreak X) (hYb : noBreak Y)
    (hX : pyStrip X = X) (hY : pyStrip Y = Y) :
    parse_deepseek_result
      ((labelChuDe ++ ' ' :: X) ++ '\n' :: (labelTomTat ++ ' ' :: Y)) =
      ⟨X, [], Y⟩ := by
  have hline1 := noBreak_label_line labelChuDe X (by decide) hXb
  have hline2 := noBreak_label_line labelTomTat Y (by decide) hYb
  have h1 := pySplitlines_append_newline (labelChuDe ++ ' ' :: X)
    (labelTomTat ++ ' ' :: Y) hline1
  have h2 := pySplitlines_of_noBreak (labelTomTat ++ ' ' :: Y) hline2
    (by simp [labelTomTat])
  simp only [parse_deepseek_result, h1, h2, List.foldl_cons, List.foldl_nil]
  rw [processLine_chuDe initParseState X hX, processLine_tomTat _ Y hY]
  simp [initParseState, hX, hY, pyStrip_nil]

theorem parse_tomTat_chuDe (X Y : List Char)
    (hXb : noBreak X) (hYb : noBreak Y)
    (hX : pyStrip X = X) (hY : pyStrip Y = Y) :
    parse_deepseek_result
      ((labelTomTat ++ ' ' :: Y) ++ '\n' :: (labelChuDe ++ ' ' :: X)) =
      ⟨X, [], Y⟩ := by
  have hline1 := noBreak_label_line labelTomTat Y (by decide) hYb
  have hline2 := noBreak_label_line labelChuDe X (by decide) hXb
  have h1 := pySplitlines_append_newline (labelTomTat ++ ' ' :: Y)
    (labelChuDe ++ ' ' :: X) hline1
  have h2 := pySplitlines_of_noBreak (labelChuDe ++ ' ' :: X) hline2
    (by simp [labelChuDe])
  simp only [parse_deepseek_result, h1, h2, List.foldl_cons, List.foldl_nil]
  rw [processLine_tomTat initParseState Y hY, processLine_chuDe _ X hX]
  simp [initParseState, hX, hY, pyStrip_nil]

theorem parse_chuDe_chuDe (A B : List Char)
    (hAb : noBreak A) (hBb : noBreak B)
    (hA : pyStrip A = A) (hB : pyStrip B = B) :
    parse_deepseek_result
      ((labelChuDe ++ ' ' :: A) ++ '\n' :: (labelChuDe ++ ' ' :: B)) =
      ⟨B, [], []⟩ := by
  have hline1 := noBreak_label_line labelChuDe A (by decide) hAb
  have hline2 := noBreak_label_line labelChuDe B (by decide) hBb
  have h1 := pySplitlines_append_newline (labelChuDe ++ ' ' :: A)
    (labelChuDe ++ ' ' :: B) hline1
  have h2 := pySplitlines_of_noBreak (labelChuDe ++ ' ' :: B) hline2
    (by simp [labelChuDe])
  simp only [parse_deepseek_result, h1, h2, List.foldl_cons, List.foldl_nil]
  rw [processLine_chuDe initParseState A hA, processLine_chuDe _ B hB]
  simp [initParseState, hB, pyStrip_nil]

/-! ### Claims about the labeled-section parser -/

/-- C4: the labeled-section parser is order-independent: parsing a
response whose recognized labels appear in reversed order
(`'Tóm tắt: Y'` on one line, `'Chủ đề: X'` on the next) still assigns
`Y` to summary and `X` to subject, and the result coincides with the
result of parsing the lines in the standard order — assignment
depends only on the label prefix of each line, never on section
order. -/
theorem claim_C4_order_independence (X Y : List Char)
    (hXb : noBreak X) (hYb : noBreak Y)
    (hX : pyStrip X = X) (hY : pyStrip Y = Y) :
    parse_deepseek_result
      ((labelTomTat ++ ' ' :: Y) ++ '\n' :: (labelChuDe ++ ' ' :: X)) =
      ⟨X, [], Y⟩ ∧
    parse_deepseek_result
      ((labelTomTat ++ ' ' :: Y) ++ '\n' :: (labelChuDe ++ ' ' :: X)) =
    parse_deepseek_result
      ((labelChuDe ++ ' ' :: X) ++ '\n' :: (labelTomTat ++ ' ' :: Y)) := by
  constructor
  · exact parse_tomTat_chuDe X Y hXb hYb hX hY
  · rw [parse_tomTat_chuDe X Y hXb hYb hX hY,
        parse_chuDe_tomTat X Y hXb hYb hX hY]

theorem claim_C4_witness :
    noBreak ['X'] ∧ noBreak ['Y'] ∧
    pyStrip ['X'] = ['X'] ∧ pyStrip ['Y'] = ['Y'] ∧
    parse_deepseek_result
      ((labelTomTat ++ ' ' :: ['Y']) ++ '\n' :: (labelChuDe ++ ' ' :: ['X'])) =
      ⟨['X'], [], ['Y']⟩ :=
  ⟨by decide, by decide, by decide, by decide,
   (claim_C4_order_independence ['X'] ['Y']
     (by decide) (by decide) (by decide) (by decide)).1⟩

/-- C5: the parser is idempotent under re-parsing its own reconstructed
output: `'Chủ đề: X\nTóm tắt: Y'` parses to subject `X` and summary
`Y`, and rebuilding the labeled text from the parse result and parsing
it again gives exactly the same field values. -/
theorem claim_C5_roundtrip (X Y : List Char)
    (hXb : noBreak X) (hYb : noBreak Y)
    (hX : pyStrip X = X) (hY : pyStrip Y = Y) :
    parse_deepseek_result (reconstructLabeled X Y) = ⟨X, [], Y⟩ ∧
    parse_deepseek_result
      (reconstructLabeled
        (parse_deepseek_result (reconstructLabeled X Y)).subject
        (parse_deepseek_result (reconstructLabeled X Y)).summary) =
      parse_deepseek_result (reconstructLabeled X Y) := by
  have h : parse_deepseek_result (reconstructLabeled X Y) = ⟨X, [], Y⟩ := by
    simp only [reconstructLabeled]
    exact parse_chuDe_tomTat X Y hXb hYb hX hY
  refine ⟨h, ?_⟩
  rw [h]
  simp only [reconstructLabeled]
  exact parse_chuDe_tomTat X Y hXb hYb hX hY

theorem claim_C5_witness :
    noBreak ['x'] ∧ noBreak ['y'] ∧
    pyStrip ['x'] = ['x'] ∧ pyStrip ['y'] = ['y'] ∧
    parse_deepseek_result
      (reconstructLabeled
        (parse_deepseek_result (reconstructLabeled ['x'] ['y'])).subject
        (parse_deepseek_result (reconstructLabeled ['x'] ['y'])).summary) =
      parse_deepseek_result (reconstructLabeled ['x'] ['y']) :=
  ⟨by decide, by decide, by decide, by decide,
   (claim_C5_roundtrip ['x'] ['y']
     (by decide) (by decide) (by decide) (by decide)).2⟩

/-- C6: an input in which no (stripped) line starts with a recognized
label parses, without raising, to all three fields empty — in
particular every line before the first recognized label is
discarded. -/
theorem claim_C6_no_labels (text : List Char)
    (h : ∀ l ∈ pySplitlines text,
      pyStartswith labelChuDe (pyStrip l) = false ∧
      pyStartswith labelTieuDe (pyStrip l) = false ∧
      pyStartswith labelTomTat (pyStrip l) = false) :
    parse_deepseek_result text = ⟨[], [], []⟩ := by
  suffices hfold :
      (pySplitlines text).foldl processLine initParseState = initParseState by
    simp only [parse_deepseek_result]
    rw [hfold]
    rfl
  have hgen : ∀ (ls : List (List Char)),
      (∀ l ∈ ls, pyStartswith labelChuDe (pyStrip l) = false ∧
        pyStartswith labelTieuDe (pyStrip l) = false ∧
        pyStartswith labelTomTat (pyStrip l) = false) →
      ls.foldl processLine initParseState = initParseState := by
    intro ls
    induction ls with
    | nil => intro _; rfl
    | cons l t ih =>
      intro hl
      have h1 := hl l (by simp)
      rw [List.foldl_cons,
          show processLine initParseState l = initParseState by
            simp [processLine, h1.1, h1.2.1, h1.2.2, initParseState]]
      exact ih (fun d hd => hl d (by simp [hd]))
  exact hgen _ h

theorem claim_C6_witness :
    (∀ l ∈ pySplitlines ("hello\nworld: no label here".data),
      pyStartswith labelChuDe (pyStrip l) = false ∧
      pyStartswith labelTieuDe (pyStrip l) = false ∧
      pyStartswith labelTomTat (pyStrip l) = false) ∧
    parse_deepseek_result ("hello\nworld: no label here".data) =
      ⟨[], [], []⟩ :=
  ⟨by decide, claim_C6_no_labels _ (by decide)⟩

/-- C10: each new occurrence of a recognized label resets that label's
field to the remainder of the matching line, independently of
everything accumulated before (last occurrence wins) — stated for each
of the three labels over every parser state, and at the text level for
two lines carrying the same label, where only the second line's value
survives. -/
theorem claim_C10_last_occurrence_wins :
    (∀ (st : ParseState) (rawLine : List Char),
       pyStartswith labelChuDe (pyStrip rawLine) = true →
       processLine st rawLine =
         { st with
             chuDe := pyStrip ((pyStrip rawLine).drop labelChuDe.length),
             current := some SectionKey.chuDe }) ∧
    (∀ (st : ParseState) (rawLine : List Char),
       pyStartswith labelTieuDe (pyStrip rawLine) = true →
       processLine st rawLine =
         { st with
             tieuDe := pyStrip ((pyStrip rawLine).drop labelTieuDe.length),
             current := some SectionKey.tieuDe }) ∧
    (∀ (st : ParseState) (rawLine : List Char),
       pyStartswith labelTomTat (pyStrip rawLine) = true →
       processLine st rawLine =
         { st with
             tomTat := pyStrip ((pyStrip rawLine).drop labelTomTat.length),
             current := some SectionKey.tomTat }) ∧
    (∀ (A B : List Char), noBreak A → noBreak B →
       pyStrip A = A → pyStrip B = B →
       parse_deepseek_result
         ((labelChuDe ++ ' ' :: A) ++ '\n' :: (labelChuDe ++ ' ' :: B)) =
         ⟨B, [], []⟩) := by
  refine ⟨?_, ?_, ?_, parse_chuDe_chuDe⟩
  · intro st rawLine h
    simp [processLine, h]
  · intro st rawLine h
    obtain ⟨r, hr⟩ := pyStartswith_exists _ _ h
    simp [processLine, hr, chuDe_not_sw_tieuDe, pyStartswith_append_self,
          List.drop_left]
  · intro st rawLine h
    obtain ⟨r, hr⟩ := pyStartswith_exists _ _ h
    simp [processLine, hr, chuDe_not_sw_tomTat, tieuDe_not_sw_tomTat,
          pyStartswith_append_self, List.drop_left]

theorem claim_C10_witness :
    pyStartswith labelChuDe (pyStrip ("Chủ đề: a".data)) = true ∧
    processLine initParseState ("Chủ đề: a".data) =
      { initParseState with
          chuDe := pyStrip ((pyStrip ("Chủ đề: a".data)).drop
            labelChuDe.length),
          current := some SectionKey.chuDe } ∧
    parse_deepseek_result
      ((labelChuDe ++ ' ' :: ['a']) ++ '\n' :: (labelChuDe ++ ' ' :: ['b'])) =
      ⟨['b'], [], []⟩ :=
  ⟨by decide,
   claim_C10_last_occurrence_wins.1 initParseState _ (by decide),
   claim_C10_last_occurrence_wins.2.2.2 ['a'] ['b']
     (by decide) (by decide) (by decide) (by decide)⟩

/-! ### Claims about extraction and analysis -/

/-- C7: a successfully extracted text of length at most the
50,000-character cap is returned verbatim with no truncation marker; a
longer text is cut to exactly the first 50,000 characters with the
`'...'` marker appended, and its length never exceeds cap plus marker
length; `fetch_webpage_content` returns exactly the (truncated)
stripped text and the real title on a successful attempt. -/
theorem claim_C7_truncation (content title : List Char) :
    (content.length ≤ MAX_CONTENT_LENGTH → truncateContent content = content) ∧
    (MAX_CONTENT_LENGTH < content.length →
       truncateContent content =
         content.take MAX_CONTENT_LENGTH ++ "...".data ∧
       (truncateContent content).length = MAX_CONTENT_LENGTH + 3 ∧
       (truncateContent content).length ≤
         MAX_CONTENT_LENGTH + ("...".data).length) ∧
    (pyStrip content ≠ [] →
       fetch_webpage_content (fun _ => FetchAttempt.ok content title) =
         (some (truncateContent (pyStrip content)),
          some (realTitleOf title))) := by
  refine ⟨?_, ?_, ?_⟩
  · intro h
    simp [truncateContent, Nat.not_lt.2 h]
  · intro h
    have he : truncateContent content =
        content.take MAX_CONTENT_LENGTH ++ "...".data := by
      simp [truncateContent, h]
    refine ⟨he, ?_, ?_⟩
    · rw [he]
      simp only [List.length_append, List.length_take,
        show ("...".data).length = 3 from rfl, MAX_CONTENT_LENGTH] at h ⊢
      omega
    · rw [he]
      simp only [List.length_append, List.length_take,
        show ("...".data).length = 3 from rfl, MAX_CONTENT_LENGTH] at h ⊢
      omega
  · intro h
    rw [fetch_webpage_content, show List.range MAX_RETRIES = [0, 1, 2] from rfl]
    simp [fetchAttemptLoop, h]

theorem claim_C7_witness :
    truncateContent ['a'] = ['a'] ∧
    (truncateContent (List.replicate 50001 'a')).length =
      MAX_CONTENT_LENGTH + 3 ∧
    fetch_webpage_content (fun _ => FetchAttempt.ok ['a'] []) =
      (some (truncateContent (pyStrip ['a'])), some (realTitleOf [])) :=
  ⟨(claim_C7_truncation ['a'] []).1 (by decide),
   ((claim_C7_truncation (List.replicate 50001 'a') []).2.1
     (by rw [List.length_replicate]; decide)).2.1,
   (claim_C7_truncation ['a'] []).2.2 (by decide)⟩

/-- C8: for every non-empty input, when all `MAX_RETRIES`
chat-completion attempts fail at the transport level, `analyze_content`
returns the empty mapping `{}` without raising, and sleeps the fixed
5-second delay after each failed attempt (in particular between
consecutive attempts). -/
theorem claim_C8_retry_exhaustion (aenv : Nat → AnalyzeOutcome)
    (content : List Char) (hc : content ≠ [])
    (hfail : ∀ i, i < MAX_RETRIES → aenv i = AnalyzeOutcome.transportFail) :
    analyze_content aenv content =
      .ok (none, [RETRY_DELAY, RETRY_DELAY, RETRY_DELAY]) := by
  have h0 := hfail 0 (by decide)
  have h1 := hfail 1 (by decide)
  have h2 := hfail 2 (by decide)
  rw [analyze_content, if_neg hc,
      show List.range MAX_RETRIES = [0, 1, 2] from rfl]
  simp [analyzeLoop, h0, h1, h2]

theorem claim_C8_witness :
    analyze_content (fun _ => AnalyzeOutcome.transportFail) ['x'] =
      .ok (none, [RETRY_DELAY, RETRY_DELAY, RETRY_DELAY]) :=
  claim_C8_retry_exhaustion _ ['x'] (by decide) (fun _ _ => rfl)

/-! ### Claims about the record sink and the pipeline -/

theorem truncateContent_ne_nil (l : List Char) (h : l ≠ []) :
    truncateContent l ≠ [] := by
  unfold truncateContent
  split
  · simp
  · exact h

theorem fetchAttemptLoop_content_ne_nil :
    ∀ (env : Nat → FetchAttempt) (idxs : List Nat) (c t : List Char),
      fetchAttemptLoop env idxs = some (c, t) → c ≠ []
  | env, [], c, t, h => by simp [fetchAttemptLoop] at h
  | env, i :: rest, c, t, h => by
    cases henv : env i with
    | fail =>
      simp only [fetchAttemptLoop, henv] at h
      exact fetchAttemptLoop_content_ne_nil env rest c t h
    | ok text title =>
      simp only [fetchAttemptLoop, henv] at h
      by_cases hc : pyStrip text = []
      · rw [if_pos hc] at h
        exact fetchAttemptLoop_content_ne_nil env rest c t h
      · rw [if_neg hc] at h
        have h1 : truncateContent (pyStrip text) = c := by
          injection h with h2
          exact congrArg Prod.fst h2
        rw [← h1]
        exact truncateContent_ne_nil _ hc

/-- C2 counterexample: with the subject key present but holding the
empty string, the appended row carries the empty string in the subject
column — not the 'Không có thông tin' sentinel the claim requires for
empty fields. -/
theorem claim_C2_counterexample :
    (update_google_sheet (some ⟨[], ['T'], ['S']⟩) ['u']
        ⟨2024, 1, 2, 3, 4, 5⟩ []).1 =
      [headersRow,
       [[], ['T'], ['S'], ['u'], formatTimestamp ⟨2024, 1, 2, 3, 4, 5⟩]] ∧
    ([] : List Char) ≠ sentinelNoInfo :=
  ⟨rfl, by decide⟩

/-- C2 (amended): the appended row is, in fixed column order, subject,
title, summary, the caller's raw URL and the local timestamp formatted
"YYYY-MM-DD HH:MM:SS"; the 'Không có thông tin' sentinel is substituted
for a field only when its key is absent from the mapping — in practice
only when the analysis mapping is the empty dict — while a present but
empty field value is written as the empty string. -/
theorem claim_C2_row_shape (r : AnalysisResult) (url : List Char)
    (now : DateTime) (ws : List Row) :
    (update_google_sheet (some r) url now ws).1 =
      get_or_create_worksheet ws ++
        [[r.subject, r.title, r.summary, url, formatTimestamp now]] ∧
    (update_google_sheet none url now ws).1 =
      get_or_create_worksheet ws ++
        [[sentinelNoInfo, sentinelNoInfo, sentinelNoInfo, url,
          formatTimestamp now]] ∧
    (update_google_sheet (some r) url now ws).2 =
      [⟨formatTimestamp now, some r, url⟩] :=
  ⟨rfl, rfl, rfl⟩

/-- C9: the fixed 5-column header row is written iff the worksheet's
first row is empty: a zero-row worksheet gets the header appended
before the data row; a worksheet whose first row is nonempty receives
only the data row; and a second persist call following the first never
writes a duplicate header. -/
theorem claim_C9_header_once (data data2 : Option AnalysisResult)
    (url url2 : List Char) (now now2 : DateTime) (ws : List Row)
    (h : ws.headD [] ≠ []) :
    (update_google_sheet data url now []).1 =
      [headersRow, sheetRow data url now] ∧
    (update_google_sheet data url now ws).1 =
      ws ++ [sheetRow data url now] ∧
    (update_google_sheet data2 url2 now2
        ((update_google_sheet data url now []).1)).1 =
      [headersRow, sheetRow data url now, sheetRow data2 url2 now2] := by
  refine ⟨rfl, ?_, ?_⟩
  · simp only [update_google_sheet, get_or_create_worksheet]
    rw [if_neg h]
    rfl
  · rw [show (update_google_sheet data url now []).1 =
      [headersRow, sheetRow data url now] from rfl]
    simp only [update_google_sheet, get_or_create_worksheet]
    rw [if_neg (show ¬([headersRow, sheetRow data url now] :
      List Row).headD [] = [] by simp [headersRow])]
    rfl

theorem claim_C9_witness :
    ([headersRow] : List Row).headD [] ≠ [] ∧
    (update_google_sheet none ['u'] ⟨2024, 1, 2, 3, 4, 5⟩ [headersRow]).1 =
      [headersRow] ++ [sheetRow none ['u'] ⟨2024, 1, 2, 3, 4, 5⟩] :=
  ⟨by decide,
   (claim_C9_header_once none none ['u'] ['u'] ⟨2024, 1, 2, 3, 4, 5⟩
     ⟨2024, 1, 2, 3, 4, 5⟩ [headersRow] (by decide)).2.1⟩

/-- C3 counterexample: when the scraped `article.title` is falsy the
fetch loop yields the sentinel 'Không có tiêu đề', and
`process_article` writes that sentinel to the title column even though
the model's reply carried the title 'Model' — the model's title is
not kept. -/
theorem claim_C3_counterexample :
    process_article (fun _ => FetchAttempt.ok ['b'] [])
        (fun _ => AnalyzeOutcome.response
          ("Tiêu đề: Model\nChủ đề: c\nTóm tắt: s".data)) ['u']
        ⟨2024, 1, 2, 3, 4, 5⟩ [] =
      .ok ⟨[headersRow,
            [['c'], sentinelNoTitle, ['s'], ['u'],
             formatTimestamp ⟨2024, 1, 2, 3, 4, 5⟩]],
           [⟨formatTimestamp ⟨2024, 1, 2, 3, 4, 5⟩,
             some ⟨['c'], sentinelNoTitle, ['s']⟩, ['u']⟩],
           true, true⟩ ∧
    sentinelNoTitle ≠ "Model".data :=
  ⟨rfl, by decide⟩

/-- C3 (amended): on every successful run of `process_article` the
independently scraped real headline overrides the model's title
unconditionally — including when it is the 'Không có tiêu đề'
sentinel — so the title cell written is always the fetch loop's
`real_title`. -/
theorem claim_C3_title_override (fenv : Nat → FetchAttempt)
    (aenv : Nat → AnalyzeOutcome) (url : List Char) (now : DateTime)
    (ws : List Row) (c rt : List Char) (a : AnalysisResult) (sl : List Nat)
    (hf : fetchAttemptLoop fenv (List.range MAX_RETRIES) = some (c, rt))
    (ha : analyzeLoop aenv (List.range MAX_RETRIES) = (some a, sl)) :
    process_article fenv aenv url now ws =
      .ok ⟨get_or_create_worksheet ws ++
             [[a.subject, rt, a.summary, url, formatTimestamp now]],
           [⟨formatTimestamp now, some ⟨a.subject, rt, a.summary⟩, url⟩],
           true, true⟩ := by
  have hc : c ≠ [] := fetchAttemptLoop_content_ne_nil fenv _ c rt hf
  simp only [process_article, hf, analyze_content, if_neg hc, ha]
  rfl

theorem claim_C3_witness :
    process_article (fun _ => FetchAttempt.ok ['b'] [])
        (fun _ => AnalyzeOutcome.response ("Chủ đề: x".data)) ['u']
        ⟨2024, 1, 2, 3, 4, 5⟩ [] =
      .ok ⟨get_or_create_worksheet [] ++
             [[['x'], sentinelNoTitle, [], ['u'],
               formatTimestamp ⟨2024, 1, 2, 3, 4, 5⟩]],
           [⟨formatTimestamp ⟨2024, 1, 2, 3, 4, 5⟩,
             some ⟨['x'], sentinelNoTitle, []⟩, ['u']⟩],
           true, true⟩ :=
  claim_C3_title_override _ _ ['u'] ⟨2024, 1, 2, 3, 4, 5⟩ []
    ['b'] sentinelNoTitle ⟨['x'], [], []⟩ [] (by decide) (by decide)

/-- C1: with every download attempt failing, `process_article` performs
zero spreadsheet writes and zero backup writes and never reaches
`analyze_content` or `update_google_sheet`; but `main` (src/main.py)
does not abort — its `if not content` guard sees a truthy 2-tuple — so
it proceeds and (here with all analysis attempts failing as well)
appends the header plus a sentinel data row and one backup record
despite the failed extraction. -/
theorem claim_C1_failed_fetch :
    process_article (fun _ => FetchAttempt.fail)
        (fun _ => AnalyzeOutcome.response ("Chủ đề: x".data)) ['u']
        ⟨2024, 1, 2, 3, 4, 5⟩ [] =
      .ok ⟨[], [], false, false⟩ ∧
    mainRun (fun _ => FetchAttempt.fail)
        (fun _ => AnalyzeOutcome.transportFail) ['u']
        ⟨2024, 1, 2, 3, 4, 5⟩ [] =
      .ok ⟨[headersRow,
            [sentinelNoInfo, sentinelNoInfo, sentinelNoInfo, ['u'],
             formatTimestamp ⟨2024, 1, 2, 3, 4, 5⟩]],
           [⟨formatTimestamp ⟨2024, 1, 2, 3, 4, 5⟩, none, ['u']⟩],
           true, true⟩ :=
  ⟨rfl, rfl⟩
